import Mathlib

/-!
Verification of the protocol cores of two sensor drivers: an SHT31
temperature/humidity driver (`sht31.py`) and a TSL2591 ambient-light driver
(`tsl2591.py`).  The pure computations (CRC-8 checksum, unit conversions,
response decoding, alert-threshold packing) are embedded as executable
functions, and the stateful configuration/timing logic is embedded as explicit
state-passing functions; Python floats are modelled exactly as rationals and
Python's `time.time()` values are passed in as explicit rational arguments.
-/

namespace SHT31

/-! ### CRC-8 checksum (sht31.py, `SHT31.crc8`)

The source keeps `crc` as an unbounded Python integer during the loop and only
masks to 8 bits at the very end (`return crc & 0xFF`); the embedding mirrors
that exactly. -/

/-- One iteration of the inner loop of `crc8`: shift left, XORing with the
polynomial `0x31` when bit 7 is set.  No masking, as in the source. -/
def crc8Step (c : ℕ) : ℕ :=
  if c &&& 0x80 ≠ 0 then (c <<< 1) ^^^ 0x31 else c <<< 1

/-- Processing of one input byte in `crc8`: XOR the byte into the running
value, then run 8 iterations of the inner loop. -/
def crc8Byte (c b : ℕ) : ℕ := crc8Step^[8] (c ^^^ b)

/-- `SHT31.crc8`: fold over the input bytes starting from `0xFF`, masking the
result to 8 bits only at the end. -/
def crc8 (blocks : List ℕ) : ℕ := (blocks.foldl crc8Byte 0xFF) &&& 0xFF

/-- The checksum algorithm exactly as the specification words it: the running
value is masked to 8 bits after each input byte (rather than only at the
end). -/
def crc8SpecByte (c b : ℕ) : ℕ := (crc8Step^[8] (c ^^^ b)) &&& 0xFF

/-- The specification's per-byte-masked formulation of the checksum. -/
def crc8Spec (blocks : List ℕ) : ℕ := blocks.foldl crc8SpecByte 0xFF

/-- Agreement of two naturals on their low 8 bits. -/
def Low8 (c c' : ℕ) : Prop := ∀ j, j < 8 → c.testBit j = c'.testBit j

/-! ### Unit conversions (sht31.py, static methods of `SHT31`)

Python floats are modelled exactly as rationals; Python's `int()` truncates
toward zero.  The source computes in IEEE doubles, which round where `ℚ` is
exact, so theorems over these definitions assert only facts that the
double-precision program shares: error bounds wide enough for both, and
concrete values at inputs where the double computation is exact. -/

/-- Python's `int()` applied to a float: truncation toward zero. -/
def pyInt (q : ℚ) : ℤ := if 0 ≤ q then ⌊q⌋ else ⌈q⌉

/-- `SHT31.merge_blocks`: `b1 << 8 | b2`. -/
def mergeBlocks (b1 b2 : ℕ) : ℕ := b1 <<< 8 ||| b2

/-- `SHT31.to_relative`: `100.0 * (humd / 65535.0)`. -/
def toRelative (humd : ℕ) : ℚ := 100 * ((humd : ℚ) / 65535)

/-- `SHT31.from_relative`: `int(humd / 100.0 * 65565.0)` — note the divisor
`65565.0`, different from the forward conversion's `65535.0`. -/
def fromRelative (humd : ℚ) : ℤ := pyInt (humd / 100 * 65565)

/-- `SHT31.to_fahrenheit`: `-49.0 + 315.0 * (temp / 65535.0)`. -/
def toFahrenheit (temp : ℕ) : ℚ := -49 + 315 * ((temp : ℚ) / 65535)

/-- `SHT31.from_fahrenheit`: `int((temp + 49.0) * 13107.0 / 63.0)`. -/
def fromFahrenheit (temp : ℚ) : ℤ := pyInt ((temp + 49) * 13107 / 63)

/-- `SHT31.to_celsius`: `-45.0 + 175.0 * (temp / 65535.0)`. -/
def toCelsius (temp : ℕ) : ℚ := -45 + 175 * ((temp : ℚ) / 65535)

/-- `SHT31.from_celsius`: `int((temp + 45.0) * 13107.0 / 35.0)`. -/
def fromCelsius (temp : ℚ) : ℤ := pyInt ((temp + 45) * 13107 / 35)

/-- The specification's formulation of the inverse relative-humidity
conversion: `round(rh / 100.0 * 65565.0)` (rounding, not truncation). -/
def fromRelativeSpec (humd : ℚ) : ℤ := round (humd / 100 * 65565)

/-! ### Measurement response decoding (sht31.py, `SHT31._process_data`) -/

/-- `SHT31._process_data`: validate the temperature group (bytes 0–2) and the
humidity group (bytes 3–5) independently; a failed checksum yields `none` for
that component only. -/
def processData (data : List ℕ) : Option ℚ × Option ℚ :=
  let temp := if crc8 (data.take 2) = data.getD 2 0
    then some (toFahrenheit (mergeBlocks (data.getD 0 0) (data.getD 1 0)))
    else none
  let humd := if crc8 ((data.drop 3).take 2) = data.getD 5 0
    then some (toRelative (mergeBlocks (data.getD 3 0) (data.getD 4 0)))
    else none
  (temp, humd)

/-! ### Alert threshold encoding (sht31.py, `SHT31._write_alert_data` and
`SHT31._read_alert_data`)

Both functions transfer a 16-bit packed value together with a CRC-8 byte.  In
the source the packed value is built from the (always nonnegative, 16-bit)
conversion results, so the wire layer is embedded over `ℕ`. -/

/-- The 16-bit packing of `_write_alert_data`:
`data = (humd & 0xFE00) | ((temp >> 7) & 0x01FF)`. -/
def packAlert (temp humd : ℕ) : ℕ := (humd &&& 0xFE00) ||| ((temp >>> 7) &&& 0x1FF)

/-- The wire bytes of `_write_alert_data` after the command word:
`[b1, b2, crc8([b1, b2])]` with `b1 = data >> 8`, `b2 = data & 0xFF`. -/
def alertBytes (temp humd : ℕ) : List ℕ :=
  let data := packAlert temp humd
  [data >>> 8, data &&& 0xFF, crc8 [data >>> 8, data &&& 0xFF]]

/-- `_write_alert_data` composed with the unit conversions of the stored
tuple `(fahrenheit, relative-humidity)`; on the driver's operating range the
conversion results are nonnegative, where `Int.toNat` is the identity. -/
def writeAlertData (tF rh : ℚ) : List ℕ :=
  alertBytes (fromFahrenheit tF).toNat (fromRelative rh).toNat

/-- `SHT31._read_alert_data` on the three bytes read back: on a checksum
match, decode `humd = data & 0xFE00`, `temp = (data & 0x01FF) << 7` and
convert to physical units; on a mismatch return `(None, None)`. -/
def readAlertData (b1 b2 c : ℕ) : Option ℚ × Option ℚ :=
  if crc8 [b1, b2] = c then
    (some (toFahrenheit ((mergeBlocks b1 b2 &&& 0x1FF) <<< 7)),
      some (toRelative (mergeBlocks b1 b2 &&& 0xFE00)))
  else (none, none)

/-- Modelled from the claim's words (C3): a 16-bit value laid out as the 9
high bits of humidity (bits 15–7) plus the 7 high bits of temperature
(bits 6–0). -/
def packAlertClaim (temp humd : ℕ) : ℕ := (humd &&& 0xFF80) ||| (temp >>> 9)

/-! ### Configuration and periodic-mode timing state (sht31.py, `SHT31`)

The driver's configuration mirrors (`__repeatability`, `__clock_stretch`,
`__periodic_interval`, `_periodic_wait`, `_periodic_next`, `__periodic_mode`)
become an explicit state record; `time.time()` readings are passed in as
rational arguments.  Decimal literals over `ℚ` are exact. -/

structure State where
  repeatability : ℤ
  clock_stretch : ℕ
  periodic_interval : ℤ
  periodic_wait : ℚ
  periodic_next : Option ℚ
  periodic_mode : Bool

/-- The `TIMING` tuple `(0.001, 0.004, 0.006, 0.015)` indexed by the
repeatability value (index 0 is the post-write reset delay). -/
def timing (rep : ℤ) : ℚ :=
  if rep = 1 then 0.004 else if rep = 2 then 0.006
  else if rep = 3 then 0.015 else 0.001

/-- The `repeatability` setter: `if val >= 1 and val <= 3`, store; otherwise
leave the stored field untouched. -/
def setRepeatability (s : State) (val : ℤ) : State :=
  if 1 ≤ val ∧ val ≤ 3 then { s with repeatability := val } else s

/-- The `clock_stretch` setter: `self.__clock_stretch = int(val)` on the
annotated `bool` domain. -/
def setClockStretch (s : State) (val : Bool) : State :=
  { s with clock_stretch := if val then 1 else 0 }

/-- The `periodic_interval` setter: `if val >= 0 and val <= 4`, store the
interval and the derived `_periodic_wait`; otherwise leave both untouched. -/
def setPeriodicInterval (s : State) (val : ℤ) : State :=
  if 0 ≤ val ∧ val ≤ 4 then
    { s with
      periodic_wait :=
        if val = 4 then 0.1 else if val = 3 then 0.25 else if val = 2 then 0.5
        else if val = 1 then 1 else 2,
      periodic_interval := val }
  else s

/-- The `periodic_mode` setter at clock reading `t`: enabling writes the mode
command and stores `_periodic_next = t + _periodic_wait + TIMING[rep]`;
disabling writes the break command and leaves `_periodic_next` untouched.
Both branches record the new mode flag. -/
def setPeriodicMode (s : State) (t : ℚ) (val : Bool) : State :=
  if val then
    { s with
      periodic_next := some (t + s.periodic_wait + timing s.repeatability),
      periodic_mode := val }
  else { s with periodic_mode := val }

/-- `SHT31.__init__`: `_periodic_next = None`, `_periodic_wait = None`, then
the three setters with `REPEATABILITY_HIGH`, `False`, `PERIODIC_MPS1`.  The
base record materialises the not-yet-assigned Python attributes with
placeholder values that the constructor immediately overwrites (except
`periodic_next`, which stays `none`). -/
def initState : State :=
  setPeriodicInterval (setClockStretch (setRepeatability
    { repeatability := 0, clock_stretch := 0, periodic_interval := 0,
      periodic_wait := 0, periodic_next := none, periodic_mode := false } 3) false) 1

/-- `periodic_fetch` at post-transfer clock reading `tEnd`: the source first
compares `self._periodic_next > curr` — a `TypeError` in Python 3 when
`_periodic_next` is still `None` — then sleeps until `_periodic_next`,
performs the fetch transfer, and stores
`_periodic_next = time.time() + _periodic_wait + TIMING[rep]`; `tEnd` is that
final clock reading, so a caller on a monotone clock has
`tEnd ≥ old _periodic_next`. -/
def periodicFetch (s : State) (tEnd : ℚ) : Except String State :=
  match s.periodic_next with
  | none => Except.error "TypeError"
  | some _ =>
      Except.ok { s with
        periodic_next := some (tEnd + s.periodic_wait + timing s.repeatability) }

/-- The enumerated repeatability values. -/
def repValid (r : ℤ) : Prop := r = 1 ∨ r = 2 ∨ r = 3

/-- The stored clock-stretch mirror is `int(bool)`. -/
def csValid (c : ℕ) : Prop := c = 0 ∨ c = 1

/-- The enumerated periodic-interval values. -/
def intervalValid (i : ℤ) : Prop := 0 ≤ i ∧ i ≤ 4

/-- The derived measurement-wait values of the five intervals. -/
def waitValid (w : ℚ) : Prop := w = 0.1 ∨ w = 0.25 ∨ w = 0.5 ∨ w = 1 ∨ w = 2

end SHT31

namespace TSL2591

/-! ### Light-sensor configuration state and saturation logic (tsl2591.py) -/

/-- The driver's in-memory mirrors: `_again` and `_atime` (used by the lux
formula), `_wait` (seconds between data cycles) and the last-observed
`saturated` flag. -/
structure State where
  again : ℚ
  atime : ℚ
  wait : ℚ
  saturated : Bool

/-- The `gain` setter: accepted values `(0x00, 0x10, 0x20, 0x30)` store the
matching multiplier; anything else leaves the state untouched.  (The
subsequent masked control-register write is bus I/O, not stored state.) -/
def setGain (s : State) (val : ℤ) : State :=
  if val = 0 ∨ val = 16 ∨ val = 32 ∨ val = 48 then
    { s with
      again := if val = 0 then 1 else if val = 16 then 25
        else if val = 32 then 428 else 9876 }
  else s

/-- The `time` setter: `if val >= 0 and val <= 5`, store the matching
integration time in ms and recompute `_wait = _atime / 100`; anything else
leaves the state untouched.  The trailing `s.atime` mirrors Python's
fall-through when no `elif` branch matches. -/
def setTime (s : State) (val : ℤ) : State :=
  if 0 ≤ val ∧ val ≤ 5 then
    let a := if val = 0 then 100 else if val = 1 then 200 else if val = 2 then 300
      else if val = 3 then 400 else if val = 4 then 500 else if val = 5 then 600
      else s.atime
    { s with atime := a, wait := a / 100 }
  else s

/-- `MAX_COUNT_100MS`: reduced maximum count at 100 ms integration time. -/
def MAX_COUNT_100MS : ℕ := 36863

/-- `MAX_COUNT`: maximum count at all other integration times. -/
def MAX_COUNT : ℕ := 65535

/-- The saturation decision of `raw_data`:
`maxc = MAX_COUNT_100MS if self.time == 0 else MAX_COUNT`, then
`saturated = True if ch0 > maxc or ch1 > maxc else False`, where `timeReg` is
the control-register time field returned by the `time` getter. -/
def rawSaturated (timeReg ch0 ch1 : ℕ) : Bool :=
  let maxc := if timeReg = 0 then MAX_COUNT_100MS else MAX_COUNT
  if ch0 > maxc ∨ ch1 > maxc then true else false

/-- The integration time in milliseconds encoded by a control-register time
field, per the `time` setter's branches (0 for values outside the
enumeration, which encode no time). -/
def atimeOfReg (reg : ℕ) : ℚ :=
  if reg = 0 then 100 else if reg = 1 then 200 else if reg = 2 then 300
  else if reg = 3 then 400 else if reg = 4 then 500 else if reg = 5 then 600 else 0

/-- The stored gain multipliers of the four gain modes. -/
def gainValid (g : ℚ) : Prop := g = 1 ∨ g = 25 ∨ g = 428 ∨ g = 9876

/-- The stored integration times of the six time modes. -/
def atimeValid (a : ℚ) : Prop :=
  a = 100 ∨ a = 200 ∨ a = 300 ∨ a = 400 ∨ a = 500 ∨ a = 600

/-- A bus transfer as seen at the transport layer. -/
inductive BusOp where
  | readByte (reg : ℕ)
  | writeByte (reg val : ℕ)
  | readWord (reg : ℕ)
  | writeWord (reg val : ℕ)
deriving DecidableEq

/-- `COMMAND_NORMAL`. -/
def COMMAND_NORMAL : ℕ := 0xA0

/-- `REGISTER_PERSIST`. -/
def REGISTER_PERSIST : ℕ := 0x0C

/-- `TSL2591._write_word`: one 16-bit word write to `COMMAND_NORMAL | reg`. -/
def writeWordOps (reg msg : ℕ) : List BusOp :=
  [BusOp.writeWord (COMMAND_NORMAL ||| reg) msg]

/-- The `persist` setter: `self._write_word(REGISTER_PERSIST, val)` — no
validation, and a word-sized write. -/
def persistSet (val : ℕ) : List BusOp := writeWordOps REGISTER_PERSIST val

/-- Modelled from the claim's words (C9): the persist setter writes the value
to the persist register as a single byte. -/
def persistSetClaim (val : ℕ) : List BusOp :=
  [BusOp.writeByte (COMMAND_NORMAL ||| REGISTER_PERSIST) val]

end TSL2591

/-- The light-sensor configuration mirrors right after `TSL2591.__init__`:
`self.time = CONTROL_ATIME_100MS`, `self.gain = CONTROL_AGAIN_LOW`,
`self.saturated = False` applied to the not-yet-assigned base record. -/
def tslInit : TSL2591.State :=
  TSL2591.setGain (TSL2591.setTime
    { again := 0, atime := 0, wait := 0, saturated := false } 0) 0

/-- A state with periodic mode enabled at clock 0, used to instantiate the
next-allowed-read timing statement. -/
def enabledState : SHT31.State := SHT31.setPeriodicMode SHT31.initState 0 true

namespace SHT31

/-! ### Helper lemmas -/

lemma low8_refl (c : ℕ) : Low8 c c := fun _ _ => rfl

lemma low8_trans {a b c : ℕ} (h1 : Low8 a b) (h2 : Low8 b c) : Low8 a c :=
  fun j hj => (h1 j hj).trans (h2 j hj)

lemma low8_and255 (c : ℕ) : Low8 c (c &&& 255) := by
  intro j hj
  rw [show (255 : ℕ) = 2 ^ 8 - 1 from by norm_num, Nat.testBit_and,
    Nat.testBit_two_pow_sub_one]
  simp [hj]

lemma and255_congr {c c' : ℕ} (h : Low8 c c') : c &&& 255 = c' &&& 255 := by
  apply Nat.eq_of_testBit_eq
  intro i
  rw [show (255 : ℕ) = 2 ^ 8 - 1 from by norm_num, Nat.testBit_and,
    Nat.testBit_and, Nat.testBit_two_pow_sub_one]
  by_cases hi : i < 8
  · simp [h i hi, hi]
  · simp [hi]

lemma testBit7_of_and128 {c : ℕ} : (c &&& 128 ≠ 0) ↔ c.testBit 7 = true := by
  have h128 : (128 : ℕ) = 2 ^ 7 := by norm_num
  constructor
  · intro hne
    by_contra hbit
    apply hne
    apply Nat.eq_of_testBit_eq
    intro i
    simp only [Nat.testBit_and, h128, Nat.testBit_two_pow, Nat.zero_testBit]
    by_cases hi : (7 : ℕ) = i
    · subst hi
      simp only [Bool.not_eq_true] at hbit
      simp [hbit]
    · simp [hi]
  · intro hbit hzero
    have h7 : Nat.testBit 128 7 = true := by decide
    have : (c &&& 128).testBit 7 = true := by
      rw [Nat.testBit_and, hbit, h7]; rfl
    rw [hzero] at this
    simp at this

lemma low8_xor {c c' : ℕ} (b : ℕ) (h : Low8 c c') : Low8 (c ^^^ b) (c' ^^^ b) := by
  intro j hj
  simp [Nat.testBit_xor, h j hj]

lemma low8_step {c c' : ℕ} (h : Low8 c c') : Low8 (crc8Step c) (crc8Step c') := by
  have hcond : (c &&& 0x80 ≠ 0) ↔ (c' &&& 0x80 ≠ 0) := by
    rw [testBit7_of_and128, testBit7_of_and128, h 7 (by norm_num)]
  have hshift : Low8 (c <<< 1) (c' <<< 1) := by
    intro j hj
    simp only [Nat.testBit_shiftLeft]
    by_cases h1 : 1 ≤ j
    · have : j - 1 < 8 := by omega
      simp [h1, h (j - 1) this]
    · simp [h1]
  unfold crc8Step
  by_cases hc : c &&& 0x80 ≠ 0
  · rw [if_pos hc, if_pos (hcond.mp hc)]
    exact low8_xor 0x31 hshift
  · rw [if_neg hc, if_neg (fun h' => hc (hcond.mpr h'))]
    exact hshift

lemma low8_iterate {c c' : ℕ} (n : ℕ) (h : Low8 c c') :
    Low8 (crc8Step^[n] c) (crc8Step^[n] c') := by
  induction n generalizing c c' with
  | zero => simpa using h
  | succ n ih =>
      rw [Function.iterate_succ_apply, Function.iterate_succ_apply]
      exact ih (low8_step h)

lemma low8_byte {c c' : ℕ} (b : ℕ) (h : Low8 c c') :
    Low8 (crc8Byte c b) (crc8Byte c' b) :=
  low8_iterate 8 (low8_xor b h)

lemma low8_foldl (bs : List ℕ) {c c' : ℕ} (h : Low8 c c') :
    Low8 (bs.foldl crc8Byte c) (bs.foldl crc8SpecByte c') := by
  induction bs generalizing c c' with
  | nil => simpa using h
  | cons b bs ih =>
      simp only [List.foldl_cons]
      apply ih
      exact low8_trans (low8_byte b h) (low8_and255 (crc8Byte c' b))

lemma crc8SpecByte_lt (c b : ℕ) : crc8SpecByte c b < 256 := by
  unfold crc8SpecByte
  have h255 : (255 : ℕ) = 2 ^ 8 - 1 := by norm_num
  rw [h255, Nat.and_pow_two_sub_one_eq_mod]
  exact Nat.mod_lt _ (by norm_num)

lemma crc8Spec_lt (bs : List ℕ) : crc8Spec bs < 256 := by
  unfold crc8Spec
  induction bs using List.reverseRecOn with
  | nil => norm_num
  | append_singleton bs b _ =>
      rw [List.foldl_append, List.foldl_cons, List.foldl_nil]
      exact crc8SpecByte_lt _ b

lemma crc8_eq_crc8Spec (bs : List ℕ) : crc8 bs = crc8Spec bs := by
  have h := and255_congr (low8_foldl bs (low8_refl 0xFF))
  have hlt : crc8Spec bs < 256 := crc8Spec_lt bs
  have hmask : crc8Spec bs &&& 255 = crc8Spec bs := by
    have h255 : (255 : ℕ) = 2 ^ 8 - 1 := by norm_num
    rw [h255]
    exact Nat.and_pow_two_sub_one_of_lt_two_pow (by simpa using hlt)
  calc crc8 bs = (bs.foldl crc8Byte 0xFF) &&& 255 := rfl
    _ = (bs.foldl crc8SpecByte 0xFF) &&& 255 := h
    _ = crc8Spec bs &&& 255 := rfl
    _ = crc8Spec bs := hmask

lemma pyInt_natCast (n : ℕ) : pyInt (n : ℚ) = n := by
  unfold pyInt
  rw [if_pos (by positivity), Int.floor_natCast]

lemma fromFahrenheit_toFahrenheit (r : ℕ) : fromFahrenheit (toFahrenheit r) = r := by
  have harg : (toFahrenheit r + 49) * 13107 / 63 = (r : ℚ) := by
    unfold toFahrenheit
    field_simp
    ring
  unfold fromFahrenheit
  rw [harg, pyInt_natCast]

lemma fromCelsius_toCelsius (r : ℕ) : fromCelsius (toCelsius r) = r := by
  have harg : (toCelsius r + 45) * 13107 / 35 = (r : ℚ) := by
    unfold toCelsius
    field_simp
    ring
  unfold fromCelsius
  rw [harg, pyInt_natCast]

lemma fromRelative_toRelative (r : ℕ) :
    fromRelative (toRelative r) = (r : ℤ) + ((30 * r) / 65535 : ℕ) := by
  have harg : toRelative r / 100 * 65565 = (((r * 65565 : ℕ) : ℤ) : ℚ) / ((65535 : ℕ) : ℚ) := by
    unfold toRelative
    push_cast
    field_simp
    ring
  have hnn : (0 : ℚ) ≤ toRelative r / 100 * 65565 := by
    rw [harg]; positivity
  unfold fromRelative pyInt
  rw [if_pos hnn, harg, Rat.floor_intCast_div_natCast]
  rw [show ((r * 65565 : ℕ) : ℤ) / ((65535 : ℕ) : ℤ) = (((r * 65565) / 65535 : ℕ) : ℤ) from
    (Int.natCast_div _ _).symm]
  have hdiv : (r * 65565) / 65535 = r + (30 * r) / 65535 := by
    have : r * 65565 = 30 * r + r * 65535 := by ring
    rw [this, Nat.add_mul_div_right _ _ (by norm_num : 0 < 65535)]
    ring
  rw [hdiv]
  push_cast
  ring

lemma maskFE00_shift : (0xFE00 : ℕ) = 127 <<< 9 := by decide

lemma testBit_127 (j : ℕ) : (127 : ℕ).testBit j = decide (j < 7) := by
  rw [show (127 : ℕ) = 2 ^ 7 - 1 from by norm_num, Nat.testBit_two_pow_sub_one]

lemma testBit_511 (j : ℕ) : (511 : ℕ).testBit j = decide (j < 9) := by
  rw [show (511 : ℕ) = 2 ^ 9 - 1 from by norm_num, Nat.testBit_two_pow_sub_one]

lemma testBit_of_lt_65536 {x : ℕ} (hx : x < 65536) {j : ℕ} (hj : 16 ≤ j) :
    x.testBit j = false := by
  apply Nat.testBit_lt_two_pow
  calc x < 65536 := hx
    _ = 2 ^ 16 := by norm_num
    _ ≤ 2 ^ j := Nat.pow_le_pow_right (by norm_num) hj

lemma mergeBlocks_split (d : ℕ) : mergeBlocks (d >>> 8) (d &&& 0xFF) = d := by
  apply Nat.eq_of_testBit_eq
  intro i
  rw [mergeBlocks, Nat.testBit_or, Nat.testBit_shiftLeft, Nat.testBit_shiftRight,
    show (0xFF : ℕ) = 2 ^ 8 - 1 from by norm_num, Nat.testBit_and,
    Nat.testBit_two_pow_sub_one]
  by_cases hi : 8 ≤ i
  · rw [show 8 + (i - 8) = i from by omega]
    simp [hi, show ¬ i < 8 from by omega]
  · simp [hi, show i < 8 from by omega]

lemma packAlert_and_1FF {t : ℕ} (h : ℕ) (ht : t < 65536) :
    packAlert t h &&& 0x1FF = t >>> 7 := by
  apply Nat.eq_of_testBit_eq
  intro i
  simp only [packAlert, maskFE00_shift, Nat.testBit_and, Nat.testBit_or,
    Nat.testBit_shiftLeft, Nat.testBit_shiftRight, testBit_127, testBit_511]
  by_cases hi : i < 9
  · simp [hi, show ¬ 9 ≤ i from by omega]
  · simp [hi, testBit_of_lt_65536 ht (show 16 ≤ 7 + i from by omega)]

lemma packAlert_and_FE00 (t h : ℕ) : packAlert t h &&& 0xFE00 = h &&& 0xFE00 := by
  apply Nat.eq_of_testBit_eq
  intro i
  simp only [packAlert, maskFE00_shift, Nat.testBit_and, Nat.testBit_or,
    Nat.testBit_shiftLeft, Nat.testBit_shiftRight, testBit_127, testBit_511]
  by_cases hi : 9 ≤ i
  · simp [hi, show ¬ i < 9 from by omega]
  · simp [hi]

lemma packAlert_shiftRight_9 {t h : ℕ} (_ht : t < 65536) (hh : h < 65536) :
    packAlert t h >>> 9 = h >>> 9 := by
  apply Nat.eq_of_testBit_eq
  intro i
  simp only [packAlert, maskFE00_shift, Nat.testBit_and, Nat.testBit_or,
    Nat.testBit_shiftLeft, Nat.testBit_shiftRight, testBit_127, testBit_511]
  have h1FF : ¬ 9 + i < 9 := by omega
  by_cases hi : i < 7
  · simp [h1FF, show 9 ≤ 9 + i from by omega, show 9 + i - 9 = i from by omega, hi]
  · simp [h1FF, testBit_of_lt_65536 hh (show 16 ≤ 9 + i from by omega),
      show ¬ 9 + i - 9 < 7 from by omega]

lemma packAlert_lt (t h : ℕ) : packAlert t h < 65536 := by
  have h1 : h &&& 0xFE00 < 2 ^ 16 := Nat.and_lt_two_pow _ (by norm_num)
  have h2 : (t >>> 7) &&& 0x1FF < 2 ^ 16 := Nat.and_lt_two_pow _ (by norm_num)
  have := Nat.or_lt_two_pow h1 h2
  simpa [packAlert] using this

lemma timing_pos (r : ℤ) : 0 < timing r := by
  unfold timing
  split_ifs <;> norm_num

lemma waitValid_pos {w : ℚ} (h : waitValid w) : 0 < w := by
  rcases h with h | h | h | h | h <;> rw [h] <;> norm_num

lemma initState_eval :
    initState =
      { repeatability := 3, clock_stretch := 0, periodic_interval := 1,
        periodic_wait := 1, periodic_next := none, periodic_mode := false } := by
  unfold initState setPeriodicInterval setClockStretch setRepeatability
  norm_num

end SHT31

lemma tslInit_eval :
    tslInit = { again := 1, atime := 100, wait := 1, saturated := false } := by
  unfold tslInit TSL2591.setGain TSL2591.setTime
  norm_num

lemma enabledState_eval :
    enabledState =
      { repeatability := 3, clock_stretch := 0, periodic_interval := 1,
        periodic_wait := 1, periodic_next := some (203/200), periodic_mode := true } := by
  rw [enabledState, SHT31.initState_eval]
  unfold SHT31.setPeriodicMode SHT31.timing
  norm_num

/-- C1 counterexample: on the two-byte input `[0x80, 0x00]` the checksum is
`0xA2`, not `0x31` as the claim states. -/
theorem crc8_80_00_ne_0x31 : SHT31.crc8 [0x80, 0x00] ≠ 0x31 := by decide

/-- C1 (amended): `crc8` computes the checksum per the stated algorithm
(initialize `crc = 0xFF`; for each input byte XOR it into `crc`, then for 8
iterations shift left, XORing with polynomial `0x31` when the high bit was
set, masking to 8 bits) — the only masking in the source is at the very end,
which agrees with the per-byte-masked formulation on every input; it is a
pure deterministic function of its input, and on the two-byte input
`[0x80, 0x00]` it returns `0xA2`. -/
theorem crc8_functional_correctness :
    (∀ bs : List ℕ, SHT31.crc8 bs = SHT31.crc8Spec bs) ∧
      SHT31.crc8 [0x80, 0x00] = 0xA2 :=
  ⟨SHT31.crc8_eq_crc8Spec, by decide⟩

/-- C2 (confirmed): each configuration setter (repeatability, clock stretch,
periodic interval, gain, integration time) keeps the stored field inside its
enumeration for every input, and an out-of-range input leaves the state
completely unchanged — no mutation, no clamping. -/
theorem config_setter_guards (s : SHT31.State) (t : TSL2591.State)
    (vr vi vg vt : ℤ) (vb : Bool) :
    (SHT31.repValid s.repeatability →
      SHT31.repValid (SHT31.setRepeatability s vr).repeatability) ∧
    (¬ (1 ≤ vr ∧ vr ≤ 3) → SHT31.setRepeatability s vr = s) ∧
    SHT31.csValid (SHT31.setClockStretch s vb).clock_stretch ∧
    (SHT31.intervalValid s.periodic_interval →
      SHT31.intervalValid (SHT31.setPeriodicInterval s vi).periodic_interval) ∧
    (SHT31.waitValid s.periodic_wait →
      SHT31.waitValid (SHT31.setPeriodicInterval s vi).periodic_wait) ∧
    (¬ (0 ≤ vi ∧ vi ≤ 4) → SHT31.setPeriodicInterval s vi = s) ∧
    (TSL2591.gainValid t.again → TSL2591.gainValid (TSL2591.setGain t vg).again) ∧
    (¬ (vg = 0 ∨ vg = 16 ∨ vg = 32 ∨ vg = 48) → TSL2591.setGain t vg = t) ∧
    (TSL2591.atimeValid t.atime → TSL2591.atimeValid (TSL2591.setTime t vt).atime) ∧
    (¬ (0 ≤ vt ∧ vt ≤ 5) → TSL2591.setTime t vt = t) := by
  refine ⟨?_, ?_, ?_, ?_, ?_, ?_, ?_, ?_, ?_, ?_⟩
  · intro h
    by_cases hc : 1 ≤ vr ∧ vr ≤ 3
    · rw [SHT31.setRepeatability, if_pos hc]
      have hv : vr = 1 ∨ vr = 2 ∨ vr = 3 := by omega
      exact hv
    · rw [SHT31.setRepeatability, if_neg hc]
      exact h
  · intro h
    rw [SHT31.setRepeatability, if_neg h]
  · cases vb
    · exact Or.inl rfl
    · exact Or.inr rfl
  · intro h
    by_cases hc : (0 : ℤ) ≤ vi ∧ vi ≤ 4
    · rw [SHT31.setPeriodicInterval, if_pos hc]
      exact hc
    · rw [SHT31.setPeriodicInterval, if_neg hc]
      exact h
  · intro h
    by_cases hc : (0 : ℤ) ≤ vi ∧ vi ≤ 4
    · rw [SHT31.setPeriodicInterval, if_pos hc]
      show SHT31.waitValid (if vi = 4 then 0.1 else if vi = 3 then 0.25
        else if vi = 2 then 0.5 else if vi = 1 then 1 else 2)
      unfold SHT31.waitValid
      split_ifs <;> norm_num
    · rw [SHT31.setPeriodicInterval, if_neg hc]
      exact h
  · intro h
    rw [SHT31.setPeriodicInterval, if_neg h]
  · intro h
    by_cases hc : vg = 0 ∨ vg = 16 ∨ vg = 32 ∨ vg = 48
    · rw [TSL2591.setGain, if_pos hc]
      show TSL2591.gainValid (if vg = 0 then 1 else if vg = 16 then 25
        else if vg = 32 then 428 else 9876)
      unfold TSL2591.gainValid
      split_ifs <;> norm_num
    · rw [TSL2591.setGain, if_neg hc]
      exact h
  · intro h
    rw [TSL2591.setGain, if_neg h]
  · intro h
    by_cases hc : (0 : ℤ) ≤ vt ∧ vt ≤ 5
    · rw [TSL2591.setTime, if_pos hc]
      show TSL2591.atimeValid (if vt = 0 then 100 else if vt = 1 then 200
        else if vt = 2 then 300 else if vt = 3 then 400 else if vt = 4 then 500
        else if vt = 5 then 600 else t.atime)
      unfold TSL2591.atimeValid
      split_ifs <;> first | (exfalso; omega) | norm_num
    · rw [TSL2591.setTime, if_neg hc]
      exact h
  · intro h
    rw [TSL2591.setTime, if_neg h]

/-- C2 witness: the setter-guard statement exercised on the drivers'
post-construction states, with in-range and out-of-range inputs for each
setter. -/
theorem config_setter_guards_witness :
    SHT31.repValid (SHT31.setRepeatability SHT31.initState 2).repeatability ∧
    SHT31.setRepeatability SHT31.initState 9 = SHT31.initState ∧
    SHT31.csValid (SHT31.setClockStretch SHT31.initState true).clock_stretch ∧
    SHT31.intervalValid (SHT31.setPeriodicInterval SHT31.initState 4).periodic_interval ∧
    SHT31.waitValid (SHT31.setPeriodicInterval SHT31.initState 4).periodic_wait ∧
    SHT31.setPeriodicInterval SHT31.initState (-1) = SHT31.initState ∧
    TSL2591.gainValid (TSL2591.setGain tslInit 48).again ∧
    TSL2591.setGain tslInit 5 = tslInit ∧
    TSL2591.atimeValid (TSL2591.setTime tslInit 3).atime ∧
    TSL2591.setTime tslInit 9 = tslInit :=
  ⟨(config_setter_guards SHT31.initState tslInit 2 0 0 0 true).1
      (by norm_num [SHT31.initState_eval, SHT31.repValid]),
    (config_setter_guards SHT31.initState tslInit 9 0 0 0 true).2.1 (by omega),
    (config_setter_guards SHT31.initState tslInit 0 0 0 0 true).2.2.1,
    (config_setter_guards SHT31.initState tslInit 0 4 0 0 true).2.2.2.1
      (by norm_num [SHT31.initState_eval, SHT31.intervalValid]),
    (config_setter_guards SHT31.initState tslInit 0 4 0 0 true).2.2.2.2.1
      (by norm_num [SHT31.initState_eval, SHT31.waitValid]),
    (config_setter_guards SHT31.initState tslInit 0 (-1) 0 0 true).2.2.2.2.2.1 (by omega),
    (config_setter_guards SHT31.initState tslInit 0 0 48 0 true).2.2.2.2.2.2.1
      (by norm_num [tslInit_eval, TSL2591.gainValid]),
    (config_setter_guards SHT31.initState tslInit 0 0 5 0 true).2.2.2.2.2.2.2.1 (by omega),
    (config_setter_guards SHT31.initState tslInit 0 0 0 3 true).2.2.2.2.2.2.2.2.1
      (by norm_num [tslInit_eval, TSL2591.atimeValid]),
    (config_setter_guards SHT31.initState tslInit 0 0 0 9 true).2.2.2.2.2.2.2.2.2 (by omega)⟩

/-- C3 counterexample: with temperature raw 0 and humidity raw `0x100 = 256`
(a bit inside the high 9 bits of humidity but outside its high 7 bits), the
code packs `0`, whereas the claimed 9-bits-of-humidity layout packs `256`;
moreover the wire bytes for humidity raws `256` and `0` are identical, so
only 7 high bits of humidity ever reach the wire. -/
theorem alert_pack_layout_mismatch :
    SHT31.packAlert 0 256 = 0 ∧ SHT31.packAlertClaim 0 256 = 256 ∧
      SHT31.packAlert 0 256 ≠ SHT31.packAlertClaim 0 256 ∧
      SHT31.alertBytes 0 256 = SHT31.alertBytes 0 0 :=
  ⟨by decide, by decide, by decide, by decide⟩

/-- C3 (amended): the alert-threshold write packs the pair into a 16-bit
value laid out as the 7 high bits of humidity (bits 15–9) plus the 9 high
bits of temperature (bits 8–0), appends a freshly computed CRC8 byte over the
two data bytes, and the alert-threshold read decodes the same layout back
into physical units (fahrenheit of the temperature raw with its low 7 bits
cleared, relative humidity of the humidity raw with its low 9 bits
cleared). -/
theorem alert_threshold_encoding (t h : ℕ) (ht : t < 65536) (hh : h < 65536) :
    SHT31.packAlert t h >>> 9 = h >>> 9 ∧
      SHT31.packAlert t h &&& 0x1FF = t >>> 7 ∧
      SHT31.alertBytes t h = [SHT31.packAlert t h >>> 8, SHT31.packAlert t h &&& 0xFF,
        SHT31.crc8 [SHT31.packAlert t h >>> 8, SHT31.packAlert t h &&& 0xFF]] ∧
      SHT31.readAlertData (SHT31.packAlert t h >>> 8) (SHT31.packAlert t h &&& 0xFF)
          (SHT31.crc8 [SHT31.packAlert t h >>> 8, SHT31.packAlert t h &&& 0xFF]) =
        (some (SHT31.toFahrenheit ((t >>> 7) <<< 7)),
          some (SHT31.toRelative (h &&& 0xFE00))) := by
  refine ⟨SHT31.packAlert_shiftRight_9 ht hh, SHT31.packAlert_and_1FF h ht, rfl, ?_⟩
  rw [SHT31.readAlertData, if_pos rfl, SHT31.mergeBlocks_split (SHT31.packAlert t h),
    SHT31.packAlert_and_1FF h ht, SHT31.packAlert_and_FE00 t h]

/-- C3 witness: the amended encoding statement instantiated at temperature
raw `0x8000` and humidity raw `0xC000`. -/
theorem alert_threshold_encoding_witness :
    (0x8000 : ℕ) < 65536 ∧ (0xC000 : ℕ) < 65536 ∧
      SHT31.packAlert 0x8000 0xC000 >>> 9 = (0xC000 : ℕ) >>> 9 ∧
      SHT31.readAlertData (SHT31.packAlert 0x8000 0xC000 >>> 8)
          (SHT31.packAlert 0x8000 0xC000 &&& 0xFF)
          (SHT31.crc8 [SHT31.packAlert 0x8000 0xC000 >>> 8,
            SHT31.packAlert 0x8000 0xC000 &&& 0xFF]) =
        (some (SHT31.toFahrenheit (((0x8000 : ℕ) >>> 7) <<< 7)),
          some (SHT31.toRelative ((0xC000 : ℕ) &&& 0xFE00))) := by
  have h := alert_threshold_encoding 0x8000 0xC000 (by norm_num) (by norm_num)
  exact ⟨by norm_num, by norm_num, h.1, h.2.2.2⟩

/-- C4 counterexample: at `r = 65535` the relative-humidity round trip
returns `65565`, which differs from `r` by `30`, not at most `1`. -/
theorem humidity_roundtrip_off_by_30 :
    SHT31.fromRelative (SHT31.toRelative 65535) = 65565 ∧
      ¬ (SHT31.fromRelative (SHT31.toRelative 65535) - 65535).natAbs ≤ 1 := by
  have h := SHT31.fromRelative_toRelative 65535
  norm_num at h
  refine ⟨h, ?_⟩
  rw [h]
  decide

/-- C4 (amended): for every raw value `r` in `[0, 65535]` the fahrenheit and
celsius round trips stay within 1 of `r` — the claim's integer-rounding
tolerance, which the source's double-precision arithmetic also satisfies (its
truncation can land on `r - 1`; the rational model, exact where doubles
round, lands on `r` itself, and only the shared bound is asserted here) —
while the relative-humidity round trip, with the divisors exactly as written
(`65535.0` forward, `65565.0` inverse), violates the bound: at `r = 65535`
both the source and the model return `65565`, a difference of 30. -/
theorem conversion_roundtrips :
    (∀ r : ℕ, r ≤ 65535 →
      (SHT31.fromFahrenheit (SHT31.toFahrenheit r) - (r : ℤ)).natAbs ≤ 1) ∧
      (∀ r : ℕ, r ≤ 65535 →
        (SHT31.fromCelsius (SHT31.toCelsius r) - (r : ℤ)).natAbs ≤ 1) ∧
      (SHT31.fromRelative (SHT31.toRelative 65535) - 65535).natAbs = 30 := by
  refine ⟨fun r _ => ?_, fun r _ => ?_, ?_⟩
  · rw [SHT31.fromFahrenheit_toFahrenheit]
    simp
  · rw [SHT31.fromCelsius_toCelsius]
    simp
  · have h := SHT31.fromRelative_toRelative 65535
    norm_num at h
    rw [h]
    decide

/-- C4 witness: the round-trip bound instantiated at raw value 2, an input
where the source's doubles land on `r - 1` and the rational model on `r` —
both inside the asserted bound. -/
theorem conversion_roundtrips_witness :
    (2 : ℕ) ≤ 65535 ∧
      (SHT31.fromFahrenheit (SHT31.toFahrenheit 2) - (2 : ℤ)).natAbs ≤ 1 ∧
      (SHT31.fromCelsius (SHT31.toCelsius 2) - (2 : ℤ)).natAbs ≤ 1 :=
  ⟨by norm_num, conversion_roundtrips.1 2 (by norm_num),
    conversion_roundtrips.2.1 2 (by norm_num)⟩

/-- C5 counterexample: at relative humidity `1.0` the code's inverse returns
`int(655.65) = 655` (truncation), while the claimed `round(655.65) = 656`. -/
theorem from_relative_truncation_vs_round :
    SHT31.fromRelative 1 = 655 ∧ SHT31.fromRelativeSpec 1 = 656 ∧
      SHT31.fromRelative 1 ≠ SHT31.fromRelativeSpec 1 := by
  have h1 : SHT31.fromRelative 1 = 655 := by
    unfold SHT31.fromRelative SHT31.pyInt
    rw [if_pos (by norm_num)]
    rw [show (1 : ℚ) / 100 * 65565 = 13113 / 20 from by norm_num,
      Int.floor_eq_iff]
    norm_num
  have h2 : SHT31.fromRelativeSpec 1 = 656 := by
    unfold SHT31.fromRelativeSpec
    rw [round_eq]
    rw [show (1 : ℚ) / 100 * 65565 + 1 / 2 = 13123 / 20 from by norm_num,
      Int.floor_eq_iff]
    norm_num
  exact ⟨h1, h2, by rw [h1, h2]; decide⟩

/-- C5 (amended): the forward conversion is exactly
`relative_humidity(raw) = 100.0 * raw / 65535.0`; the inverse computes
`raw = int(rh / 100.0 * 65565.0)` with the divisor `65565.0` exactly as
written, but `int()` truncates toward zero (the floor, for nonnegative
humidity) rather than rounding, so at `rh = 1.0` it returns `655` where
rounding would return `656`. -/
theorem relative_conversion_formulas :
    (∀ h : ℕ, SHT31.toRelative h = 100 * ((h : ℚ) / 65535)) ∧
      (∀ q : ℚ, 0 ≤ q → SHT31.fromRelative q = ⌊q / 100 * 65565⌋) ∧
      SHT31.fromRelative 1 ≠ SHT31.fromRelativeSpec 1 := by
  refine ⟨fun _ => rfl, fun q hq => ?_, from_relative_truncation_vs_round.2.2⟩
  unfold SHT31.fromRelative SHT31.pyInt
  rw [if_pos (mul_nonneg (div_nonneg hq (by norm_num)) (by norm_num))]

/-- C5 witness: the amended inverse-conversion statement instantiated at the
nonnegative humidity `3.0`. -/
theorem relative_conversion_formulas_witness :
    (0 : ℚ) ≤ 3 ∧ SHT31.fromRelative 3 = ⌊(3 : ℚ) / 100 * 65565⌋ :=
  ⟨by norm_num, relative_conversion_formulas.2.1 3 (by norm_num)⟩

/-- C6 (confirmed): for a 6-byte response, the temperature (bytes 0–2) and
humidity (bytes 3–5) CRC groups are validated independently: a valid
temperature CRC with an invalid humidity CRC yields
`(some temperature, none)` — no exception. -/
theorem process_data_isolates_checksum (b0 b1 b2 b3 b4 b5 : ℕ)
    (h1 : SHT31.crc8 [b0, b1] = b2) (h2 : SHT31.crc8 [b3, b4] ≠ b5) :
    SHT31.processData [b0, b1, b2, b3, b4, b5] =
      (some (SHT31.toFahrenheit (SHT31.mergeBlocks b0 b1)), none) := by
  unfold SHT31.processData
  simp only [List.take_succ_cons, List.take_zero, List.drop_succ_cons,
    List.drop_zero, List.getD_cons_succ, List.getD_cons_zero]
  rw [if_pos h1, if_neg h2]

/-- C6 witness: a concrete 6-byte response whose temperature CRC matches
(`crc8 [0x80, 0x00] = 0xA2`) and whose humidity CRC does not
(`crc8 [0, 0] = 0x81 ≠ 0`). -/
theorem process_data_isolates_checksum_witness :
    SHT31.crc8 [128, 0] = 162 ∧ SHT31.crc8 [0, 0] ≠ 0 ∧
      SHT31.processData [128, 0, 162, 0, 0, 0] =
        (some (SHT31.toFahrenheit (SHT31.mergeBlocks 128 0)), none) :=
  ⟨by decide, by decide,
    process_data_isolates_checksum 128 0 162 0 0 0 (by decide) (by decide)⟩

/-- C7 counterexample: enable periodic mode at clock 0 with interval 0.5 mps
and high repeatability (`_periodic_next = 2.015`), then shrink the interval
to 10 mps and re-enable at clock 0.2: `_periodic_next` becomes `0.315`,
strictly smaller than its previous value — the timestamp regresses. -/
theorem periodic_next_regression :
    (SHT31.setPeriodicMode (SHT31.setPeriodicInterval SHT31.initState 0) 0
      true).periodic_next = some (403/200) ∧
    (SHT31.setPeriodicMode (SHT31.setPeriodicInterval (SHT31.setPeriodicMode
      (SHT31.setPeriodicInterval SHT31.initState 0) 0 true) 4) (1/5)
      true).periodic_next = some (63/200) ∧
    (63/200 : ℚ) < 403/200 := by
  have e1 : SHT31.setPeriodicInterval SHT31.initState 0 =
      ({ repeatability := 3, clock_stretch := 0, periodic_interval := 0,
          periodic_wait := 2, periodic_next := none, periodic_mode := false } : SHT31.State) := by
    rw [SHT31.initState_eval]
    norm_num [SHT31.setPeriodicInterval]
  have e2 : SHT31.setPeriodicMode (SHT31.setPeriodicInterval SHT31.initState 0) 0 true =
      ({ repeatability := 3, clock_stretch := 0, periodic_interval := 0,
          periodic_wait := 2, periodic_next := some (403/200), periodic_mode := true } : SHT31.State) := by
    rw [e1]
    norm_num [SHT31.setPeriodicMode, SHT31.timing]
  have e3 : SHT31.setPeriodicInterval (SHT31.setPeriodicMode
      (SHT31.setPeriodicInterval SHT31.initState 0) 0 true) 4 =
      ({ repeatability := 3, clock_stretch := 0, periodic_interval := 4,
          periodic_wait := 0.1, periodic_next := some (403/200), periodic_mode := true } : SHT31.State) := by
    rw [e2]
    norm_num [SHT31.setPeriodicInterval]
  refine ⟨by rw [e2], ?_, by norm_num⟩
  rw [e3]
  norm_num [SHT31.setPeriodicMode, SHT31.timing]

/-- C7 (amended): the two operations that move the next-allowed-read
timestamp each set it to the operation's clock reading plus the measurement
latency (`_periodic_wait` plus the repeatability settle time), and
`periodic_fetch` — which first sleeps until the old timestamp — never
regresses it; but re-enabling periodic mode after shrinking the interval can
regress it (see the counterexample). -/
theorem next_read_timestamp (s : SHT31.State) (t tEnd n : ℚ)
    (hn : s.periodic_next = some n) (hend : n ≤ tEnd)
    (hw : SHT31.waitValid s.periodic_wait) :
    (SHT31.setPeriodicMode s t true).periodic_next =
        some (t + s.periodic_wait + SHT31.timing s.repeatability) ∧
      SHT31.periodicFetch s tEnd = Except.ok { s with
        periodic_next := some (tEnd + s.periodic_wait + SHT31.timing s.repeatability) } ∧
      n < tEnd + s.periodic_wait + SHT31.timing s.repeatability := by
  refine ⟨by simp [SHT31.setPeriodicMode], ?_, ?_⟩
  · unfold SHT31.periodicFetch
    rw [hn]
  · have h1 := SHT31.waitValid_pos hw
    have h2 := SHT31.timing_pos s.repeatability
    linarith

/-- C7 witness: the timing statement instantiated on a freshly enabled
handle (`_periodic_next = 1.015`) fetched at clock 2. -/
theorem next_read_timestamp_witness :
    enabledState.periodic_next = some (203/200) ∧ (203/200 : ℚ) ≤ 2 ∧
      SHT31.waitValid enabledState.periodic_wait ∧
      SHT31.periodicFetch enabledState 2 = Except.ok { enabledState with
        periodic_next := some (2 + enabledState.periodic_wait + SHT31.timing enabledState.repeatability) } ∧
      (203/200 : ℚ) < 2 + enabledState.periodic_wait +
        SHT31.timing enabledState.repeatability :=
  ⟨by rw [enabledState_eval], by norm_num,
    by norm_num [enabledState_eval, SHT31.waitValid],
    (next_read_timestamp enabledState 0 2 (203/200) (by rw [enabledState_eval])
      (by norm_num) (by norm_num [enabledState_eval, SHT31.waitValid])).2.1,
    (next_read_timestamp enabledState 0 2 (203/200) (by rw [enabledState_eval])
      (by norm_num) (by norm_num [enabledState_eval, SHT31.waitValid])).2.2⟩

/-- C8 (confirmed): after a raw read, `saturated` is true iff either channel
count exceeds its threshold — 36863 counts when the integration time is
exactly 100 ms, 65535 otherwise; channel value 36864 saturates at 100 ms
(register field 0) but not at 200 ms (register field 1). -/
theorem raw_data_saturation :
    (∀ reg c0 c1 : ℕ, TSL2591.rawSaturated reg c0 c1 = true ↔
      (c0 > (if TSL2591.atimeOfReg reg = 100 then 36863 else 65535) ∨
        c1 > (if TSL2591.atimeOfReg reg = 100 then 36863 else 65535))) ∧
      TSL2591.rawSaturated 0 36864 0 = true ∧
      TSL2591.rawSaturated 1 36864 0 = false := by
  refine ⟨fun reg c0 c1 => ?_, by decide, by decide⟩
  have hbridge : (TSL2591.atimeOfReg reg = 100) ↔ reg = 0 := by
    unfold TSL2591.atimeOfReg
    split_ifs with h0 h1 h2 h3 h4 h5 <;> simp_all
  simp only [hbridge]
  unfold TSL2591.rawSaturated TSL2591.MAX_COUNT_100MS TSL2591.MAX_COUNT
  by_cases h0 : reg = 0 <;> simp [h0]

/-- C9 counterexample: the persist setter emits a 16-bit word write, not the
single-byte write the claim states. -/
theorem persist_not_byte_write :
    TSL2591.persistSet 0 ≠ TSL2591.persistSetClaim 0 := by decide

/-- C9 (amended): the persist setter accepts the 16-value enumeration
`0x00`–`0x0F` (it performs no validation at all) and writes the value to the
persist register (`COMMAND_NORMAL | REGISTER_PERSIST = 0xAC`) as a 16-bit
word through the word-write primitive, not as a single byte. -/
theorem persist_write_word (v : ℕ) (_hv : v < 16) :
    TSL2591.persistSet v = [TSL2591.BusOp.writeWord 0xAC v] := by
  unfold TSL2591.persistSet TSL2591.writeWordOps TSL2591.COMMAND_NORMAL
    TSL2591.REGISTER_PERSIST
  rw [show (0xA0 ||| 0x0C : ℕ) = 0xAC from by decide]

/-- C9 witness: the persist-write statement at the largest enumeration value
`PERSIST_60 = 0x0F`. -/
theorem persist_write_word_witness :
    (15 : ℕ) < 16 ∧ TSL2591.persistSet 15 = [TSL2591.BusOp.writeWord 0xAC 15] :=
  ⟨by decide, persist_write_word 15 (by decide)⟩

/-- C10 (confirmed): a freshly constructed handle has `_periodic_next =
None`, and `periodic_fetch` hits the `None > float` comparison, which raises
a `TypeError` rather than fetching or returning a defined error value. -/
theorem fresh_handle_fetch_type_error :
    SHT31.initState.periodic_next = none ∧
      ∀ t : ℚ, SHT31.periodicFetch SHT31.initState t = Except.error "TypeError" :=
  ⟨rfl, fun _ => rfl⟩
